import Mathlib

/-!
Verification development for the `reprodl` repository (`training.py`).

The Python source is shallow-embedded below:
* `ESC50Dataset` models the manifest-backed dataset class: the CSV manifest is
  a list of `Row`s, construction filters rows by fold membership, and the
  torchaudio transforms are recorded by their static construction parameters.
* The torchaudio transform functions themselves (`Resample`, `MelSpectrogram`,
  `AmplitudeToDB`) and the audio loader are third-party library code; they are
  abstracted as an `AudioLib` record of pure functions, and the filesystem as a
  partial map from path strings to (waveform, reported sample rate) pairs.
* `AudioNet` models the network's layer records and the shape semantics of its
  forward pass; `validation_step` models the accuracy metric and logging.
* `train` models the hydra entry point as a pure function returning the ordered
  trace of its effects together with the constructed datasets.
-/

namespace ReproDL

/-- One row of the manifest CSV `meta/esc50.csv`: the columns used by
`training.py` are `filename`, `fold` and `target`. -/
structure Row where
  filename : String
  fold : Int
  target : Int
deriving Repr, DecidableEq

/-- The `ESC50Dataset` object after `__init__`: the filtered CSV plus the
static construction parameters of the three torchaudio transforms created in
`__init__` (`Resample(orig_freq=44100, new_freq=sample_rate)`,
`MelSpectrogram(sample_rate=sample_rate)`, `AmplitudeToDB(top_db=80)`). -/
structure ESC50Dataset where
  path : String
  csv : List Row
  resampleOrigFreq : Nat
  resampleNewFreq : Nat
  melspecSampleRate : Nat
  dbTopDb : Nat
deriving Repr, DecidableEq

/-- The torchaudio transform functions, abstracted: each transform object is a
pure function of its construction parameters and its input.  `W` is the type
of waveforms, `T` the type of spectrogram tensors. -/
structure AudioLib (W T : Type) where
  Resample : Nat → Nat → W → W
  MelSpectrogram : Nat → W → T
  AmplitudeToDB : Nat → T → T

/-- `ESC50Dataset.__init__` (training.py lines 28-40).  In Python the CSV is
read from `<path>/meta/esc50.csv`; here its parsed content is the `manifest`
argument.  The Python defaults are `sample_rate=8000`, `folds=[1]`; callers
that omit these arguments pass the default values explicitly here. -/
def ESC50Dataset.init (manifest : List Row) (path : String)
    (sample_rate : Nat) (folds : List Int) : ESC50Dataset :=
  { path := path
    csv := manifest.filter (fun r => folds.contains r.fold)
    resampleOrigFreq := 44100
    resampleNewFreq := sample_rate
    melspecSampleRate := sample_rate
    dbTopDb := 80 }

/-- `ESC50Dataset.__len__` (training.py lines 50-52): length of the filtered
CSV. -/
def ESC50Dataset.len (d : ESC50Dataset) : Nat :=
  d.csv.length

/-- Errors that `__getitem__` can raise: an index error from `self.csv.iloc`
or a load error from `torchaudio.load` when the file is missing/unreadable. -/
inductive GetError where
  | indexError
  | loadError (path : String)
deriving Repr, DecidableEq

/-- `ESC50Dataset.__getitem__` (training.py lines 42-48).  `fs` maps a path
string to the `(waveform, sample_rate)` pair returned by `torchaudio.load`,
or `none` when the file is missing or unreadable.  The reported sample rate
is bound to `_` in the source and discarded.  The transforms are applied in
the order `self.db(self.melspec(self.resample(wav)))`. -/
def ESC50Dataset.getitem {W T : Type} (lib : AudioLib W T)
    (fs : String → Option (W × Nat)) (d : ESC50Dataset) (index : Nat) :
    Except GetError (T × Int) :=
  match d.csv[index]? with
  | none => .error .indexError
  | some row =>
    match fs (d.path ++ "/audio/" ++ row.filename) with
    | none => .error (.loadError (d.path ++ "/audio/" ++ row.filename))
    | some (wav, _) =>
      .ok (lib.AmplitudeToDB d.dbTopDb
             (lib.MelSpectrogram d.melspecSampleRate
               (lib.Resample d.resampleOrigFreq d.resampleNewFreq wav)),
           row.target)

/-- A call of `__getitem__` as a state transformer on the dataset object:
the method reads `self.csv`, `self.path` and the transform fields and assigns
to none of them, so the post-state is the pre-state. -/
def ESC50Dataset.getitemCall {W T : Type} (lib : AudioLib W T)
    (fs : String → Option (W × Nat)) (d : ESC50Dataset) (index : Nat) :
    Except GetError (T × Int) × ESC50Dataset :=
  (d.getitem lib fs index, d)

/-- C1: for every manifest and fold set, `length()` equals the number of
manifest rows whose fold value is in the set; in particular if no row's fold
is in the set the dataset has length 0. -/
theorem ESC50Dataset.len_eq_count_matching (manifest : List Row) (path : String)
    (sample_rate : Nat) (folds : List Int) :
    (ESC50Dataset.init manifest path sample_rate folds).len
      = manifest.countP (fun r => folds.contains r.fold)
    ∧ ((∀ r ∈ manifest, ¬ folds.contains r.fold) →
        (ESC50Dataset.init manifest path sample_rate folds).len = 0) := by
  constructor
  · simp [ESC50Dataset.init, ESC50Dataset.len, List.countP_eq_length_filter]
  · intro h
    simp only [ESC50Dataset.init, ESC50Dataset.len, List.length_eq_zero,
      List.filter_eq_nil_iff]
    intro r hr
    simpa using h r hr

/-- Concrete instantiation of `ESC50Dataset.len_eq_count_matching`. -/
theorem ESC50Dataset.len_eq_count_matching_check :
    (ESC50Dataset.init [⟨"a.wav", 1, 0⟩, ⟨"b.wav", 2, 3⟩, ⟨"c.wav", 1, 5⟩]
        "data/ESC-50" 8000 [1]).len
      = ([⟨"a.wav", 1, 0⟩, ⟨"b.wav", 2, 3⟩, ⟨"c.wav", 1, 5⟩] : List Row).countP
          (fun r => ([1] : List Int).contains r.fold)
    ∧ ((∀ r ∈ ([⟨"a.wav", 1, 0⟩, ⟨"b.wav", 2, 3⟩, ⟨"c.wav", 1, 5⟩] : List Row),
          ¬ ([1] : List Int).contains r.fold) →
        (ESC50Dataset.init [⟨"a.wav", 1, 0⟩, ⟨"b.wav", 2, 3⟩, ⟨"c.wav", 1, 5⟩]
            "data/ESC-50" 8000 [1]).len = 0) :=
  ESC50Dataset.len_eq_count_matching _ _ _ _

/-- Helper: `get(index)` on a dataset built by `__init__` unfolds to the
transform pipeline applied to the loaded waveform, given the row lookup and a
successful load. -/
theorem ESC50Dataset.getitem_init_aux {W T : Type} (lib : AudioLib W T)
    (fs : String → Option (W × Nat)) (manifest : List Row) (path : String)
    (sample_rate : Nat) (folds : List Int) (index : Nat) (row : Row)
    (wav : W) (rate : Nat)
    (hrow : (ESC50Dataset.init manifest path sample_rate folds).csv[index]?
              = some row)
    (hload : fs (path ++ "/audio/" ++ row.filename) = some (wav, rate)) :
    (ESC50Dataset.init manifest path sample_rate folds).getitem lib fs index
      = .ok (lib.AmplitudeToDB 80
               (lib.MelSpectrogram sample_rate
                 (lib.Resample 44100 sample_rate wav)),
             row.target) := by
  simp only [ESC50Dataset.getitem, hrow]
  have hp : (ESC50Dataset.init manifest path sample_rate folds).path = path := rfl
  rw [hp, hload]
  rfl

/-- C2: for a valid index whose row's file loads, `get(index)` returns the
pair `(AmplitudeToDB(MelSpectrogram(Resample(waveform))), target)`: the three
transform stages in exactly that order, each applied with the static
construction parameters (`top_db=80`; `sample_rate` for the mel-spectrogram;
`orig_freq=44100`, `new_freq=sample_rate` for the resampler). -/
theorem ESC50Dataset.getitem_eq_pipeline {W T : Type} (lib : AudioLib W T)
    (fs : String → Option (W × Nat)) (manifest : List Row) (path : String)
    (sample_rate : Nat) (folds : List Int) (index : Nat) (row : Row)
    (wav : W) (rate : Nat)
    (hrow : (ESC50Dataset.init manifest path sample_rate folds).csv[index]?
              = some row)
    (hload : fs (path ++ "/audio/" ++ row.filename) = some (wav, rate)) :
    (ESC50Dataset.init manifest path sample_rate folds).getitem lib fs index
      = .ok (lib.AmplitudeToDB 80
               (lib.MelSpectrogram sample_rate
                 (lib.Resample 44100 sample_rate wav)),
             row.target) :=
  ESC50Dataset.getitem_init_aux lib fs manifest path sample_rate folds index
    row wav rate hrow hload

/-- A concrete audio library used to instantiate the parametric theorems:
waveforms and tensors are integer lists, the transforms are simple injective
markers so that distinct stages are distinguishable. -/
def natLib : AudioLib (List Int) (List Int) :=
  { Resample := fun o n w => (o : Int) :: (n : Int) :: w
    MelSpectrogram := fun sr w => (sr : Int) :: w
    AmplitudeToDB := fun td t => (td : Int) :: t }

/-- A concrete three-row manifest used to instantiate the parametric
theorems. -/
def manifest0 : List Row :=
  [⟨"dog.wav", 1, 0⟩, ⟨"rain.wav", 2, 10⟩, ⟨"crow.wav", 1, 9⟩]

/-- A concrete filesystem: `dog.wav` and `crow.wav` exist under the dataset
root, `rain.wav` does not. -/
def fs0 : String → Option (List Int × Nat) :=
  fun p =>
    if p = "data/ESC-50/audio/dog.wav" then some ([5, 6], 44100)
    else if p = "data/ESC-50/audio/crow.wav" then some ([7], 22050)
    else none

/-- Concrete instantiation of `ESC50Dataset.getitem_eq_pipeline`. -/
theorem ESC50Dataset.getitem_eq_pipeline_check :
    (ESC50Dataset.init manifest0 "data/ESC-50" 8000 [1]).getitem natLib fs0 0
      = .ok (natLib.AmplitudeToDB 80
               (natLib.MelSpectrogram 8000
                 (natLib.Resample 44100 8000 [5, 6])),
             (0 : Int)) :=
  ESC50Dataset.getitem_eq_pipeline natLib fs0 manifest0 "data/ESC-50" 8000 [1]
    0 ⟨"dog.wav", 1, 0⟩ [5, 6] 44100 (by decide)
    (by simp [fs0])

/-- C6: `get(index)` is deterministic and stateless: viewing a call as a state
transformer on the dataset object, two successive calls with the same index
return equal results and leave the dataset object unchanged. -/
theorem ESC50Dataset.getitem_deterministic {W T : Type} (lib : AudioLib W T)
    (fs : String → Option (W × Nat)) (d : ESC50Dataset) (index : Nat) :
    (d.getitemCall lib fs index).1
        = ((d.getitemCall lib fs index).2.getitemCall lib fs index).1
      ∧ (d.getitemCall lib fs index).2 = d
      ∧ ((d.getitemCall lib fs index).2.getitemCall lib fs index).2 = d := by
  exact ⟨rfl, rfl, rfl⟩

/-- C8: when the row's audio file is missing or unreadable, `get(index)`
raises a load error naming the file path, and in particular returns no
`(feature, label)` pair. -/
theorem ESC50Dataset.getitem_load_failure {W T : Type} (lib : AudioLib W T)
    (fs : String → Option (W × Nat)) (d : ESC50Dataset) (index : Nat)
    (row : Row) (hrow : d.csv[index]? = some row)
    (hmissing : fs (d.path ++ "/audio/" ++ row.filename) = none) :
    d.getitem lib fs index
        = .error (GetError.loadError (d.path ++ "/audio/" ++ row.filename))
      ∧ ∀ out : T × Int, d.getitem lib fs index ≠ .ok out := by
  have h : d.getitem lib fs index
      = .error (GetError.loadError (d.path ++ "/audio/" ++ row.filename)) := by
    simp only [ESC50Dataset.getitem, hrow, hmissing]
  exact ⟨h, fun out hout => by simp [h] at hout⟩

/-- Concrete instantiation of `ESC50Dataset.getitem_load_failure`: index 1 of
the fold-2 dataset names `rain.wav`, which `fs0` does not contain. -/
theorem ESC50Dataset.getitem_load_failure_check :
    (ESC50Dataset.init manifest0 "data/ESC-50" 8000 [2]).getitem natLib fs0 0
        = .error (GetError.loadError "data/ESC-50/audio/rain.wav")
      ∧ ∀ out : List Int × Int,
          (ESC50Dataset.init manifest0 "data/ESC-50" 8000 [2]).getitem
            natLib fs0 0 ≠ .ok out :=
  ESC50Dataset.getitem_load_failure natLib fs0
    (ESC50Dataset.init manifest0 "data/ESC-50" 8000 [2]) 0 ⟨"rain.wav", 2, 10⟩
    (by decide) (by simp [fs0, ESC50Dataset.init])

/-- C9: the dataset's resampler is constructed with `orig_freq` fixed to
44100, and the sample rate reported by the audio loader is discarded: two
filesystems that return the same waveform under different reported rates make
`get(index)` return the same output. -/
theorem ESC50Dataset.resample_orig_freq_fixed {W T : Type} (lib : AudioLib W T)
    (fs₁ fs₂ : String → Option (W × Nat)) (manifest : List Row) (path : String)
    (sample_rate : Nat) (folds : List Int) (index : Nat) (row : Row)
    (wav : W) (rate₁ rate₂ : Nat)
    (hrow : (ESC50Dataset.init manifest path sample_rate folds).csv[index]?
              = some row)
    (h₁ : fs₁ (path ++ "/audio/" ++ row.filename) = some (wav, rate₁))
    (h₂ : fs₂ (path ++ "/audio/" ++ row.filename) = some (wav, rate₂)) :
    (ESC50Dataset.init manifest path sample_rate folds).resampleOrigFreq = 44100
      ∧ (ESC50Dataset.init manifest path sample_rate folds).getitem lib fs₁ index
          = (ESC50Dataset.init manifest path sample_rate folds).getitem lib fs₂
              index := by
  refine ⟨rfl, ?_⟩
  rw [ESC50Dataset.getitem_init_aux lib fs₁ manifest path sample_rate folds
        index row wav rate₁ hrow h₁,
      ESC50Dataset.getitem_init_aux lib fs₂ manifest path sample_rate folds
        index row wav rate₂ hrow h₂]

/-- Concrete instantiation of `ESC50Dataset.resample_orig_freq_fixed`: the
same waveform reported at 44100 Hz by one filesystem and at 16000 Hz by
another yields the same dataset output. -/
theorem ESC50Dataset.resample_orig_freq_fixed_check :
    (ESC50Dataset.init manifest0 "data/ESC-50" 8000 [1]).resampleOrigFreq = 44100
      ∧ (ESC50Dataset.init manifest0 "data/ESC-50" 8000 [1]).getitem natLib fs0 0
          = (ESC50Dataset.init manifest0 "data/ESC-50" 8000 [1]).getitem natLib
              (fun p => if p = "data/ESC-50/audio/dog.wav"
                        then some ([5, 6], 16000) else none) 0 :=
  ESC50Dataset.resample_orig_freq_fixed natLib fs0
    (fun p => if p = "data/ESC-50/audio/dog.wav" then some ([5, 6], 16000)
              else none)
    manifest0 "data/ESC-50" 8000 [1] 0 ⟨"dog.wav", 1, 0⟩ [5, 6] 44100 16000
    (by decide) (by simp [fs0]) (by simp)

/-- A `nn.Conv2d` layer's static parameters (square kernel, symmetric
padding, stride 1, as in `training.py`). -/
structure Conv2d where
  inChannels : Nat
  outChannels : Nat
  kernelSize : Nat
  padding : Nat
deriving Repr, DecidableEq

/-- The `nn.Conv2d` constructor: PyTorch requires positive channel counts and
kernel size. -/
def mkConv2d (inChannels outChannels kernelSize padding : Nat) :
    Option Conv2d :=
  if 1 ≤ inChannels ∧ 1 ≤ outChannels ∧ 1 ≤ kernelSize then
    some ⟨inChannels, outChannels, kernelSize, padding⟩
  else none

/-- A `nn.Linear` layer's static parameters. -/
structure Linear where
  inFeatures : Nat
  outFeatures : Nat
deriving Repr, DecidableEq

/-- The `hparams` object consumed by `AudioNet.__init__`: the fields of the
`model` configuration node it reads. -/
structure Hparams where
  base_filters : Nat
  num_classes : Nat
deriving Repr, DecidableEq

/-- The `AudioNet` module after `__init__` (training.py lines 56-74): layer
records named as in the source. `bn1`-`bn4` record the `num_features`
argument of each `nn.BatchNorm2d`; `pool1`/`pool2` the `nn.MaxPool2d` kernel
size. -/
structure AudioNet where
  conv1 : Conv2d
  bn1 : Nat
  conv2 : Conv2d
  bn2 : Nat
  pool1 : Nat
  conv3 : Conv2d
  bn3 : Nat
  conv4 : Conv2d
  bn4 : Nat
  pool2 : Nat
  fc1 : Linear
deriving Repr, DecidableEq

/-- `AudioNet.__init__` (training.py lines 56-74), layer by layer:
`conv1 = Conv2d(1, F, 11, padding=5)`, `conv2 = Conv2d(F, F, 3, padding=1)`,
`conv3 = Conv2d(F, 2F, 3, padding=1)`, `conv4 = Conv2d(2F, 4F, 3, padding=1)`
with batchnorms of matching widths, two `MaxPool2d(2)` layers, and
`fc1 = Linear(4F, num_classes)`, where `F = hparams.base_filters`. -/
def AudioNet.init (hparams : Hparams) : Option AudioNet := do
  let conv1 ← mkConv2d 1 hparams.base_filters 11 5
  let conv2 ← mkConv2d hparams.base_filters hparams.base_filters 3 1
  let conv3 ← mkConv2d hparams.base_filters (hparams.base_filters * 2) 3 1
  let conv4 ← mkConv2d (hparams.base_filters * 2) (hparams.base_filters * 4) 3 1
  some
    { conv1 := conv1
      bn1 := hparams.base_filters
      conv2 := conv2
      bn2 := hparams.base_filters
      pool1 := 2
      conv3 := conv3
      bn3 := hparams.base_filters * 2
      conv4 := conv4
      bn4 := hparams.base_filters * 4
      pool2 := 2
      fc1 := ⟨hparams.base_filters * 4, hparams.num_classes⟩ }

/-- The shape `(N, C, H, W)` of a rank-4 tensor. -/
structure Shape4 where
  n : Nat
  c : Nat
  h : Nat
  w : Nat
deriving Repr, DecidableEq

/-- Shape semantics of `nn.Conv2d` with stride 1: the channel count must
match and each spatial output extent `d + 2*padding - kernelSize + 1` must be
positive, else PyTorch raises. -/
def Conv2d.shape : Conv2d → Shape4 → Option Shape4
  | ⟨ic, oc, k, p⟩, ⟨n, c, h, w⟩ =>
    if c = ic ∧ k ≤ h + 2 * p ∧ k ≤ w + 2 * p then
      some ⟨n, oc, h + 2 * p - k + 1, w + 2 * p - k + 1⟩
    else none

/-- Shape semantics of `nn.BatchNorm2d`: the channel count must equal
`num_features`; the shape is unchanged (as is the shape under `F.relu`). -/
def batchNorm2dShape (numFeatures : Nat) : Shape4 → Option Shape4
  | ⟨n, c, h, w⟩ =>
    if c = numFeatures then some ⟨n, c, h, w⟩ else none

/-- Shape semantics of `nn.MaxPool2d(k)` (stride `k`, no padding): each
spatial extent must be at least `k`, and is divided by `k` (floor). -/
def maxPool2dShape (k : Nat) : Shape4 → Option Shape4
  | ⟨n, c, h, w⟩ =>
    if k ≤ h ∧ k ≤ w then some ⟨n, c, h / k, w / k⟩ else none

/-- Shape semantics of `F.adaptive_avg_pool2d(x, (1, 1))`: requires nonempty
spatial extents and collapses them to `1 × 1`. -/
def adaptiveAvgPool2dShape : Shape4 → Option Shape4
  | ⟨n, c, h, w⟩ =>
    if 1 ≤ h ∧ 1 ≤ w then some ⟨n, c, 1, 1⟩ else none

/-- Shape semantics of the indexing `x[:, :, 0, 0]`: requires nonempty
spatial extents and yields the rank-2 shape `(N, C)`. -/
def indexSpatial00Shape : Shape4 → Option (Nat × Nat)
  | ⟨n, c, h, w⟩ =>
    if 1 ≤ h ∧ 1 ≤ w then some (n, c) else none

/-- Shape semantics of `nn.Linear` on a rank-2 input `(N, C)`: the feature
dimension must equal `inFeatures`. -/
def Linear.shape : Linear → Nat × Nat → Option (Nat × Nat)
  | ⟨inF, outF⟩, (n, c) =>
    if c = inF then some (n, outF) else none

/-- Shape semantics of `AudioNet.forward` (training.py lines 76-89), stage by
stage in source order; `F.relu` preserves shape so it does not appear. -/
def AudioNet.forwardShape (net : AudioNet) (s : Shape4) : Option (Nat × Nat) := do
  let s ← net.conv1.shape s
  let s ← batchNorm2dShape net.bn1 s
  let s ← net.conv2.shape s
  let s ← batchNorm2dShape net.bn2 s
  let s ← maxPool2dShape net.pool1 s
  let s ← net.conv3.shape s
  let s ← batchNorm2dShape net.bn3 s
  let s ← net.conv4.shape s
  let s ← batchNorm2dShape net.bn4 s
  let s ← maxPool2dShape net.pool2 s
  let s ← adaptiveAvgPool2dShape s
  let p ← indexSpatial00Shape s
  net.fc1.shape p

/-- `mkConv2d` succeeds on positive channel counts and kernel size. -/
theorem mkConv2d_pos (i o k p : Nat) (hi : 1 ≤ i) (ho : 1 ≤ o) (hk : 1 ≤ k) :
    mkConv2d i o k p = some ⟨i, o, k, p⟩ := by
  unfold mkConv2d
  rw [if_pos ⟨hi, ho, hk⟩]

/-- `AudioNet.__init__` with positive `base_filters` yields the explicit
layer records of the source. -/
theorem AudioNet.init_pos (hparams : Hparams)
    (hbf : 1 ≤ hparams.base_filters) :
    AudioNet.init hparams =
      some
        { conv1 := ⟨1, hparams.base_filters, 11, 5⟩
          bn1 := hparams.base_filters
          conv2 := ⟨hparams.base_filters, hparams.base_filters, 3, 1⟩
          bn2 := hparams.base_filters
          pool1 := 2
          conv3 := ⟨hparams.base_filters, hparams.base_filters * 2, 3, 1⟩
          bn3 := hparams.base_filters * 2
          conv4 := ⟨hparams.base_filters * 2, hparams.base_filters * 4, 3, 1⟩
          bn4 := hparams.base_filters * 4
          pool2 := 2
          fc1 := ⟨hparams.base_filters * 4, hparams.num_classes⟩ } := by
  unfold AudioNet.init
  rw [mkConv2d_pos 1 hparams.base_filters 11 5 (by omega) hbf (by omega),
    mkConv2d_pos hparams.base_filters hparams.base_filters 3 1 hbf hbf
      (by omega),
    mkConv2d_pos hparams.base_filters (hparams.base_filters * 2) 3 1 hbf
      (by omega) (by omega),
    mkConv2d_pos (hparams.base_filters * 2) (hparams.base_filters * 4) 3 1
      (by omega) (by omega) (by omega)]
  rfl

/-- Inversion of `AudioNet.init`: construction succeeds only for positive
`base_filters`, and then yields the explicit layer records of the source. -/
theorem AudioNet.init_eq (hparams : Hparams) (net : AudioNet)
    (h : AudioNet.init hparams = some net) :
    1 ≤ hparams.base_filters
      ∧ net =
        { conv1 := ⟨1, hparams.base_filters, 11, 5⟩
          bn1 := hparams.base_filters
          conv2 := ⟨hparams.base_filters, hparams.base_filters, 3, 1⟩
          bn2 := hparams.base_filters
          pool1 := 2
          conv3 := ⟨hparams.base_filters, hparams.base_filters * 2, 3, 1⟩
          bn3 := hparams.base_filters * 2
          conv4 := ⟨hparams.base_filters * 2, hparams.base_filters * 4, 3, 1⟩
          bn4 := hparams.base_filters * 4
          pool2 := 2
          fc1 := ⟨hparams.base_filters * 4, hparams.num_classes⟩ } := by
  by_cases hbf : 1 ≤ hparams.base_filters
  · rw [AudioNet.init_pos hparams hbf] at h
    exact ⟨hbf, (Option.some.inj h).symm⟩
  · exfalso
    have hnone : mkConv2d 1 hparams.base_filters 11 5 = none := by
      unfold mkConv2d
      rw [if_neg]
      intro hc
      exact hbf hc.2.1
    unfold AudioNet.init at h
    rw [hnone] at h
    exact Option.noConfusion h

/-- C4: for every positive `base_filters`, `AudioNet` construction succeeds,
and the input dimension of the final linear layer `fc1` is exactly
`4 * base_filters`. -/
theorem AudioNet.init_succeeds_fc1_in (hparams : Hparams)
    (hbf : 1 ≤ hparams.base_filters) :
    ∃ net, AudioNet.init hparams = some net
      ∧ net.fc1.inFeatures = 4 * hparams.base_filters := by
  refine ⟨_, AudioNet.init_pos hparams hbf, ?_⟩
  show hparams.base_filters * 4 = 4 * hparams.base_filters
  omega

/-- Concrete instantiation of `AudioNet.init_succeeds_fc1_in` at
`base_filters = 32`. -/
theorem AudioNet.init_succeeds_fc1_in_check :
    ∃ net, AudioNet.init ⟨32, 50⟩ = some net
      ∧ net.fc1.inFeatures = 4 * (32 : Nat) :=
  AudioNet.init_succeeds_fc1_in ⟨32, 50⟩ (by decide)

/-- C3: for every batch shape `(N, 1, H, W)` with `H, W` at least the
network's minimum extent (4, so that both `MaxPool2d(2)` stages have nonempty
input), the forward pass produces exactly the shape `(N, num_classes)`. -/
theorem AudioNet.forward_output_shape (hparams : Hparams) (net : AudioNet)
    (hnet : AudioNet.init hparams = some net) (n h w : Nat)
    (hh : 4 ≤ h) (hw : 4 ≤ w) :
    net.forwardShape ⟨n, 1, h, w⟩ = some (n, hparams.num_classes) := by
  obtain ⟨hbf, hrec⟩ := AudioNet.init_eq hparams net hnet
  subst hrec
  have e1 : h + 2 * 5 - 11 + 1 = h := by omega
  have e2 : w + 2 * 5 - 11 + 1 = w := by omega
  have e3 : h + 2 * 1 - 3 + 1 = h := by omega
  have e4 : w + 2 * 1 - 3 + 1 = w := by omega
  have e5 : h / 2 + 2 * 1 - 3 + 1 = h / 2 := by omega
  have e6 : w / 2 + 2 * 1 - 3 + 1 = w / 2 := by omega
  have s1 : Conv2d.shape ⟨1, hparams.base_filters, 11, 5⟩ ⟨n, 1, h, w⟩
      = some ⟨n, hparams.base_filters, h, w⟩ := by
    have hc : True ∧ 11 ≤ h + 2 * 5 ∧ 11 ≤ w + 2 * 5 :=
      ⟨trivial, by omega, by omega⟩
    simp only [Conv2d.shape]
    rw [if_pos hc, e1, e2]
  have s2 : batchNorm2dShape hparams.base_filters
        ⟨n, hparams.base_filters, h, w⟩
      = some ⟨n, hparams.base_filters, h, w⟩ := by
    simp [batchNorm2dShape]
  have s3 : Conv2d.shape ⟨hparams.base_filters, hparams.base_filters, 3, 1⟩
        ⟨n, hparams.base_filters, h, w⟩
      = some ⟨n, hparams.base_filters, h, w⟩ := by
    have hc : True ∧ 3 ≤ h + 2 * 1 ∧ 3 ≤ w + 2 * 1 :=
      ⟨trivial, by omega, by omega⟩
    simp only [Conv2d.shape]
    rw [if_pos hc, e3, e4]
  have s5 : maxPool2dShape 2 ⟨n, hparams.base_filters, h, w⟩
      = some ⟨n, hparams.base_filters, h / 2, w / 2⟩ := by
    have hc : 2 ≤ h ∧ 2 ≤ w := ⟨by omega, by omega⟩
    simp only [maxPool2dShape]
    rw [if_pos hc]
  have s6 : Conv2d.shape
        ⟨hparams.base_filters, hparams.base_filters * 2, 3, 1⟩
        ⟨n, hparams.base_filters, h / 2, w / 2⟩
      = some ⟨n, hparams.base_filters * 2, h / 2, w / 2⟩ := by
    have hc : True ∧ 3 ≤ h / 2 + 2 * 1 ∧ 3 ≤ w / 2 + 2 * 1 :=
      ⟨trivial, by omega, by omega⟩
    simp only [Conv2d.shape]
    rw [if_pos hc, e5, e6]
  have s7 : batchNorm2dShape (hparams.base_filters * 2)
        ⟨n, hparams.base_filters * 2, h / 2, w / 2⟩
      = some ⟨n, hparams.base_filters * 2, h / 2, w / 2⟩ := by
    simp [batchNorm2dShape]
  have s8 : Conv2d.shape
        ⟨hparams.base_filters * 2, hparams.base_filters * 4, 3, 1⟩
        ⟨n, hparams.base_filters * 2, h / 2, w / 2⟩
      = some ⟨n, hparams.base_filters * 4, h / 2, w / 2⟩ := by
    have hc : True ∧ 3 ≤ h / 2 + 2 * 1 ∧ 3 ≤ w / 2 + 2 * 1 :=
      ⟨trivial, by omega, by omega⟩
    simp only [Conv2d.shape]
    rw [if_pos hc, e5, e6]
  have s9 : batchNorm2dShape (hparams.base_filters * 4)
        ⟨n, hparams.base_filters * 4, h / 2, w / 2⟩
      = some ⟨n, hparams.base_filters * 4, h / 2, w / 2⟩ := by
    simp [batchNorm2dShape]
  have s10 : maxPool2dShape 2 ⟨n, hparams.base_filters * 4, h / 2, w / 2⟩
      = some ⟨n, hparams.base_filters * 4, h / 2 / 2, w / 2 / 2⟩ := by
    have hc : 2 ≤ h / 2 ∧ 2 ≤ w / 2 := ⟨by omega, by omega⟩
    simp only [maxPool2dShape]
    rw [if_pos hc]
  have s11 : adaptiveAvgPool2dShape
        ⟨n, hparams.base_filters * 4, h / 2 / 2, w / 2 / 2⟩
      = some ⟨n, hparams.base_filters * 4, 1, 1⟩ := by
    have hc : 1 ≤ h / 2 / 2 ∧ 1 ≤ w / 2 / 2 := ⟨by omega, by omega⟩
    simp only [adaptiveAvgPool2dShape]
    rw [if_pos hc]
  have s12 : indexSpatial00Shape ⟨n, hparams.base_filters * 4, 1, 1⟩
      = some (n, hparams.base_filters * 4) := by
    simp [indexSpatial00Shape]
  have s13 : Linear.shape ⟨hparams.base_filters * 4, hparams.num_classes⟩
        (n, hparams.base_filters * 4)
      = some (n, hparams.num_classes) := by
    simp [Linear.shape]
  simp only [AudioNet.forwardShape, Option.bind_eq_bind, s1,
    Option.some_bind, s2, s3, s5, s6, s7, s8, s9, s10, s11, s12, s13]

/-- The concrete network built from `base_filters = 32`, `num_classes = 50`
(the repository's default configuration values). -/
def net32 : AudioNet :=
  { conv1 := ⟨1, 32, 11, 5⟩
    bn1 := 32
    conv2 := ⟨32, 32, 3, 1⟩
    bn2 := 32
    pool1 := 2
    conv3 := ⟨32, 64, 3, 1⟩
    bn3 := 64
    conv4 := ⟨64, 128, 3, 1⟩
    bn4 := 128
    pool2 := 2
    fc1 := ⟨128, 50⟩ }

/-- Concrete instantiation of `AudioNet.forward_output_shape` on a batch of
shape `(5, 1, 200, 100)` with `base_filters = 32`, `num_classes = 50`. -/
theorem AudioNet.forward_output_shape_check :
    net32.forwardShape ⟨5, 1, 200, 100⟩ = some (5, 50) :=
  AudioNet.forward_output_shape ⟨32, 50⟩ net32 (by decide) 5 200 100
    (by decide) (by decide)

/-- `torch.argmax` along the class dimension of one row of logits: the index
of the (first) maximal entry.  `bi`/`bv` track the best index and value seen
so far, `i` the index of the head of the remaining list. -/
def argmaxGo : List ℚ → Nat → Nat → ℚ → Nat
  | [], _, bi, _ => bi
  | x :: xs, i, bi, bv =>
    if bv < x then argmaxGo xs (i + 1) i x else argmaxGo xs (i + 1) bi bv

/-- `torch.argmax` on a row of logits (`dim=1` of the batch). -/
def torchArgmax : List ℚ → Nat
  | [] => 0
  | x :: xs => argmaxGo xs 1 0 x

/-- `pytorch_lightning.metrics.functional.accuracy` on integer class
predictions: the fraction of positions where the prediction equals the
label. -/
def plAccuracy (preds : List Nat) (target : List Int) : ℚ :=
  (((preds.zip target).countP fun p => (p.1 : Int) = p.2 : Nat) : ℚ)
    / (((preds.zip target).length : Nat) : ℚ)

/-- One `self.log(name, value, ...)` call. -/
structure LogRecord where
  name : String
  value : ℚ
  on_epoch : Bool
  prog_bar : Bool
deriving DecidableEq

/-- `AudioNet.validation_step` (training.py lines 99-105): compute the logits
`self(x)` (abstracted as `forward`, one row of class scores per batch
element), take the arg-max class per row, compute the accuracy against the
labels `y`, log it as `val_acc` with `on_epoch=True, prog_bar=True`, and
return it.  The returned pair is (return value, the emitted log record). -/
def validation_step {X : Type} (forward : X → List (List ℚ)) (x : X)
    (y : List Int) : ℚ × LogRecord :=
  let y_hat := forward x
  let preds := y_hat.map torchArgmax
  let acc := plAccuracy preds y
  (acc, ⟨"val_acc", acc, true, true⟩)

/-- C5: the validation step computes arg-max predictions and their accuracy
against the labels and logs it as the epoch-aggregated metric `val_acc`: on a
nonempty batch, if every predicted class equals its label the value is 1, and
if every predicted class differs from its label the value is 0. -/
theorem validation_step_accuracy {X : Type} (forward : X → List (List ℚ))
    (x : X) (y : List Int) (hlen : (forward x).length = y.length)
    (hne : y ≠ []) :
    ((∀ p ∈ ((forward x).map torchArgmax).zip y, ((p.1 : Int) = p.2)) →
        (validation_step forward x y).1 = 1)
      ∧ ((∀ p ∈ ((forward x).map torchArgmax).zip y, ((p.1 : Int) ≠ p.2)) →
          (validation_step forward x y).1 = 0)
      ∧ (validation_step forward x y).2.name = "val_acc"
      ∧ (validation_step forward x y).2.on_epoch = true
      ∧ (validation_step forward x y).2.value
          = (validation_step forward x y).1 := by
  have hzlen : (((forward x).map torchArgmax).zip y).length = y.length := by
    rw [List.length_zip, List.length_map, hlen, min_self]
  have hzne : (((forward x).map torchArgmax).zip y).length ≠ 0 := by
    rw [hzlen]
    exact fun hy => hne (List.length_eq_zero.mp hy)
  refine ⟨?_, ?_, rfl, rfl, rfl⟩
  · intro hall
    show plAccuracy ((forward x).map torchArgmax) y = 1
    unfold plAccuracy
    rw [List.countP_eq_length.mpr]
    · rw [div_self]
      exact_mod_cast hzne
    · intro p hp
      exact decide_eq_true (hall p hp)
  · intro hnone
    show plAccuracy ((forward x).map torchArgmax) y = 0
    unfold plAccuracy
    rw [List.countP_eq_zero.mpr]
    · simp
    · intro p hp
      simpa using hnone p hp

/-- Concrete instantiation of `validation_step_accuracy`: a two-element batch
whose logits put the maximum at classes 1 and 0, labels `[1, 0]`. -/
theorem validation_step_accuracy_check :
    ((∀ p ∈ (([[0, 5], [7, 2]] : List (List ℚ)).map torchArgmax).zip
          ([1, 0] : List Int), ((p.1 : Int) = p.2)) →
        (validation_step (fun _ : Unit => [[0, 5], [7, 2]]) () [1, 0]).1 = 1)
      ∧ ((∀ p ∈ (([[0, 5], [7, 2]] : List (List ℚ)).map torchArgmax).zip
            ([1, 0] : List Int), ((p.1 : Int) ≠ p.2)) →
          (validation_step (fun _ : Unit => [[0, 5], [7, 2]]) () [1, 0]).1 = 0)
      ∧ (validation_step (fun _ : Unit => [[0, 5], [7, 2]]) () [1, 0]).2.name
          = "val_acc"
      ∧ (validation_step (fun _ : Unit => [[0, 5], [7, 2]]) ()
            [1, 0]).2.on_epoch = true
      ∧ (validation_step (fun _ : Unit => [[0, 5], [7, 2]]) () [1, 0]).2.value
          = (validation_step (fun _ : Unit => [[0, 5], [7, 2]]) () [1, 0]).1 :=
  validation_step_accuracy (fun _ : Unit => [[0, 5], [7, 2]]) () [1, 0]
    (by decide) (by decide)

/-- The `model.optim` configuration node. -/
structure OptimConfig where
  lr : ℚ
deriving DecidableEq

/-- The `model` configuration node. -/
structure ModelConfig where
  base_filters : Nat
  num_classes : Nat
  optim : OptimConfig
deriving DecidableEq

/-- The `data` configuration node. -/
structure DataConfig where
  path : String
  sample_rate : Nat
  batch_size : Nat
  train_folds : List Int
  val_folds : List Int
  test_folds : List Int
deriving DecidableEq

/-- The resolved hydra configuration consumed by `train`. -/
structure Config where
  seed : Int
  data : DataConfig
  model : ModelConfig
deriving DecidableEq

/-- The sweep-run values held by `wandb.config` after `wandb.init`: in a
plain run they echo the defaults registered from `cfg`, in a sweep run they
are the sweep-injected overrides. -/
structure WandbConfig where
  sample_rate : Nat
  base_filters : Nat
  lr : ℚ
deriving DecidableEq

/-- A `torch.utils.data.DataLoader` as constructed by `train`: the wrapped
dataset plus `batch_size` and `shuffle`. -/
structure DataLoader where
  dataset : ESC50Dataset
  batch_size : Nat
  shuffle : Bool
deriving DecidableEq

/-- The externally observable actions of the `train` entry point, in the
order they are performed. -/
inductive TrainEvent where
  | logConfig
  | wandbInit
  | overrideConfig
  | mkDataset
  | mkLoader
  | seedEverything
  | mkWandbLogger
  | mkModel
  | fit
deriving Repr, DecidableEq

def TrainEvent.isLogConfig : TrainEvent → Bool
  | .logConfig => true
  | _ => false

def TrainEvent.isMkDataset : TrainEvent → Bool
  | .mkDataset => true
  | _ => false

def TrainEvent.isMkLoader : TrainEvent → Bool
  | .mkLoader => true
  | _ => false

def TrainEvent.isSeed : TrainEvent → Bool
  | .seedEverything => true
  | _ => false

def TrainEvent.isMkModel : TrainEvent → Bool
  | .mkModel => true
  | _ => false

def TrainEvent.isFit : TrainEvent → Bool
  | .fit => true
  | _ => false

/-- What invoking `train` produces: the ordered trace of its actions and the
objects it constructs. -/
structure TrainResult where
  trace : List TrainEvent
  cfgFinal : Config
  train_data : ESC50Dataset
  val_data : ESC50Dataset
  test_data : ESC50Dataset
  train_loader : DataLoader
  val_loader : DataLoader
  test_loader : DataLoader
  audionet : Option AudioNet
deriving DecidableEq

/-- The `train` entry point (training.py lines 112-150), in source order:
log the resolved configuration; `wandb.init` with the defaults taken from
`cfg`; overwrite `cfg.data.sample_rate`, `cfg.model.base_filters` and
`cfg.model.optim.lr` from `wandb.config`; build the three datasets from
`<original-cwd>/<cfg.data.path>` and the configured folds (the
`sample_rate` argument is omitted at all three call sites, so the
constructor default 8000 is passed); wrap them in data loaders (shuffling
only the training one); `pl.seed_everything(cfg.seed)`; create the wandb
logger; build `AudioNet(cfg.model)`; fit. -/
def train (manifest : List Row) (origCwd : String) (cfg : Config)
    (wandbCfg : WandbConfig) : TrainResult :=
  let cfgA : Config :=
    { cfg with data := { cfg.data with sample_rate := wandbCfg.sample_rate } }
  let cfgB : Config :=
    { cfgA with
        model := { cfgA.model with base_filters := wandbCfg.base_filters } }
  let cfg1 : Config :=
    { cfgB with
        model := { cfgB.model with
                     optim := { cfgB.model.optim with lr := wandbCfg.lr } } }
  let path := origCwd ++ "/" ++ cfg1.data.path
  let train_data := ESC50Dataset.init manifest path 8000 cfg1.data.train_folds
  let val_data := ESC50Dataset.init manifest path 8000 cfg1.data.val_folds
  let test_data := ESC50Dataset.init manifest path 8000 cfg1.data.test_folds
  let train_loader : DataLoader := ⟨train_data, cfg1.data.batch_size, true⟩
  let val_loader : DataLoader := ⟨val_data, cfg1.data.batch_size, false⟩
  let test_loader : DataLoader := ⟨test_data, cfg1.data.batch_size, false⟩
  let audionet := AudioNet.init ⟨cfg1.model.base_filters,
                                 cfg1.model.num_classes⟩
  { trace := [.logConfig, .wandbInit, .overrideConfig,
              .mkDataset, .mkDataset, .mkDataset,
              .mkLoader, .mkLoader, .mkLoader,
              .seedEverything, .mkWandbLogger, .mkModel, .fit]
    cfgFinal := cfg1
    train_data := train_data
    val_data := val_data
    test_data := test_data
    train_loader := train_loader
    val_loader := val_loader
    test_loader := test_loader
    audionet := audionet }

/-- A concrete configuration matching the repository's defaults. -/
def cfg0 : Config :=
  { seed := 0
    data := { path := "data/ESC-50", sample_rate := 8000, batch_size := 8,
              train_folds := [1, 2, 3], val_folds := [4], test_folds := [5] }
    model := { base_filters := 32, num_classes := 50,
               optim := { lr := 1 / 1000 } } }

/-- A concrete `wandb.config` echoing the registered defaults. -/
def wandb0 : WandbConfig :=
  { sample_rate := 8000, base_filters := 32, lr := 1 / 1000 }

/-- C7 counterexample: on a concrete run, seeding does NOT precede dataset
construction — `pl.seed_everything` is called only after the datasets and
loaders are built. -/
theorem train_seed_not_before_datasets :
    ¬ ((train manifest0 "/cwd" cfg0 wandb0).trace.findIdx TrainEvent.isSeed
        < (train manifest0 "/cwd" cfg0 wandb0).trace.findIdx
            TrainEvent.isMkDataset) := by
  decide

/-- C7 (amended): the entry point performs, in this order: (a) logs the
resolved configuration, (b) constructs the train/val/test datasets and
loaders from the configured folds, (c) seeds all randomness, (d) constructs
the model and runs the delegated fit procedure — seeding follows dataset and
loader construction and precedes model construction and fit. -/
theorem train_event_order (manifest : List Row) (origCwd : String)
    (cfg : Config) (wandbCfg : WandbConfig) :
    ((train manifest origCwd cfg wandbCfg).trace.findIdx TrainEvent.isLogConfig
        < (train manifest origCwd cfg wandbCfg).trace.findIdx
            TrainEvent.isMkDataset)
      ∧ ((train manifest origCwd cfg wandbCfg).trace.findIdx
            TrainEvent.isMkDataset
          < (train manifest origCwd cfg wandbCfg).trace.findIdx
              TrainEvent.isMkLoader)
      ∧ ((train manifest origCwd cfg wandbCfg).trace.findIdx
            TrainEvent.isMkLoader
          < (train manifest origCwd cfg wandbCfg).trace.findIdx
              TrainEvent.isSeed)
      ∧ ((train manifest origCwd cfg wandbCfg).trace.findIdx TrainEvent.isSeed
          < (train manifest origCwd cfg wandbCfg).trace.findIdx
              TrainEvent.isMkModel)
      ∧ ((train manifest origCwd cfg wandbCfg).trace.findIdx
            TrainEvent.isMkModel
          < (train manifest origCwd cfg wandbCfg).trace.findIdx
              TrainEvent.isFit)
      ∧ (train manifest origCwd cfg wandbCfg).trace.findIdx TrainEvent.isFit
          < (train manifest origCwd cfg wandbCfg).trace.length := by
  have htr : (train manifest origCwd cfg wandbCfg).trace
      = [.logConfig, .wandbInit, .overrideConfig,
         .mkDataset, .mkDataset, .mkDataset,
         .mkLoader, .mkLoader, .mkLoader,
         .seedEverything, .mkWandbLogger, .mkModel, .fit] := rfl
  rw [htr]
  decide

/-- C10: every dataset built by the entry point uses the constructor default
sample rate 8000 in its resample and mel-spectrogram stages, for every
configured `data.sample_rate` and every sweep-injected override. -/
theorem train_datasets_use_default_sample_rate (manifest : List Row)
    (origCwd : String) (cfg : Config) (wandbCfg : WandbConfig) :
    ((train manifest origCwd cfg wandbCfg).train_data.resampleNewFreq = 8000
        ∧ (train manifest origCwd cfg wandbCfg).train_data.melspecSampleRate
            = 8000)
      ∧ ((train manifest origCwd cfg wandbCfg).val_data.resampleNewFreq = 8000
        ∧ (train manifest origCwd cfg wandbCfg).val_data.melspecSampleRate
            = 8000)
      ∧ ((train manifest origCwd cfg wandbCfg).test_data.resampleNewFreq = 8000
        ∧ (train manifest origCwd cfg wandbCfg).test_data.melspecSampleRate
            = 8000)
      ∧ ∀ v₁ v₂ : Nat,
          (train manifest origCwd
            { cfg with data := { cfg.data with sample_rate := v₁ } }
            { wandbCfg with sample_rate := v₂ }).train_data
            = (train manifest origCwd cfg wandbCfg).train_data := by
  exact ⟨⟨rfl, rfl⟩, ⟨rfl, rfl⟩, ⟨rfl, rfl⟩, fun v₁ v₂ => rfl⟩

end ReproDL
